import Mathlib

/-!
Verification of the lexiai oral-exam engine against its specification.

The development shallowly embeds the Python sources:
  * `src/judge.py`   — `RagasJudge.evaluate_answer` (metric extraction via
    `safe_get`, weighted score, rounding, remedial flag) and
    `RagasJudge.generate_followup` (JSON parse with generic fallback);
  * `src/orchestrator.py` — the LangGraph workflow of
    `OralExamOrchestrator`: the node functions `ask_question`,
    `listen_answer`, `evaluate_response`, `remedial_action`,
    `advance_step`, the conditional router `route_logic`, and the graph
    wiring of `build_workflow` (ask → listen → grade → route, remedial →
    listen, advance → ask) as a small-step executor;
  * `src/gui.py` / `src/ui.py` — the index/retry branching of the desktop
    and web adapters on `JudgeResult.is_remedial_needed`.

Python floats that carry scores are modelled as rationals; Python's
`round(x, 1)` is modelled as round-half-to-even at one decimal.  External
LLM calls (grading metrics, qualitative feedback, generated follow-up
text, JSON parsing) are oracle parameters; every piece of control flow is
translated from the source.
-/

/-! ## Judge model (`src/judge.py`) -/

/-- The three metric values a Ragas evaluation can hand back for one key:
a finite numeric value, a NaN, or nothing usable (missing key / value that
`float` rejects, both of which raise and are caught by `safe_get`). -/
inductive MetricVal where
  | ok (q : ℚ)
  | nan
  | missing
deriving DecidableEq

/-- Model of `safe_get` inside `RagasJudge.evaluate_answer`: a finite numeric value is
returned as is; a NaN fails the `float(val) == float(val)` test and
becomes `0.0`; a missing key or a non-numeric value raises and the bare
`except` returns `0.0`. -/
def safe_get : MetricVal → ℚ
  | .ok q => q
  | .nan => 0
  | .missing => 0

/-- The triple of raw metric outcomes for one grading call
(`faithfulness`, `answer_relevancy`, `answer_correctness`). -/
structure MetricResults where
  faith : MetricVal
  rel : MetricVal
  corr : MetricVal
deriving DecidableEq

/-- Round-half-to-even to an integer, the semantics of Python's built-in
`round` on the rational values that arise here. -/
def roundHalfEven (q : ℚ) : ℤ :=
  if q - ⌊q⌋ = 1/2 then (if ⌊q⌋ % 2 = 0 then ⌊q⌋ else ⌊q⌋ + 1) else round q

/-- Python's `round(x, 1)`: round to one decimal place. -/
def round1 (q : ℚ) : ℚ := (roundHalfEven (q * 10) : ℚ) / 10

/-- The metric breakdown stored on a `JudgeResult`. -/
structure Metrics where
  faithfulness : ℚ
  relevancy : ℚ
  correctness : ℚ
deriving DecidableEq

/-- The `JudgeResult` dataclass of `src/judge.py`. -/
structure JudgeResult where
  score : ℚ
  is_remedial_needed : Bool
  feedback : String
  metrics : Metrics
deriving DecidableEq

/-- Model of `RagasJudge.evaluate_answer`, after the external calls have produced
the raw metric outcomes `m` and the qualitative feedback text `fb`:
`final_score = c*0.5 + f*0.3 + r*0.2`, `scaled_score = round(final*10, 1)`,
`is_remedial = scaled_score < 7.0`.  (The `"[score/10] "` prefix glued
onto the feedback is presentation-only string formatting and is elided.) -/
def evaluate_answer (m : MetricResults) (fb : String) : JudgeResult :=
  let f_score := safe_get m.faith
  let r_score := safe_get m.rel
  let c_score := safe_get m.corr
  let final_score := c_score * (1/2) + f_score * (3/10) + r_score * (1/5)
  let scaled_score := round1 (final_score * 10)
  { score := scaled_score
    is_remedial_needed := decide (scaled_score < 7)
    feedback := fb
    metrics := ⟨f_score, r_score, c_score⟩ }

/-- Grading rubric as the orchestrator reads it: a dict whose `criteria`
and `exemplar` keys may be absent (looked up with `.get`). -/
structure Rubric where
  criteria : Option String
  exemplar : Option String
deriving DecidableEq

/-- A synthesized follow-up question dict
(`question` / `context_snippet` / `rubric`). -/
structure Followup where
  question : String
  context_snippet : String
  rubric : Rubric
deriving DecidableEq

/-- Outcome of the `google_chat.invoke` call inside
`RagasJudge.generate_followup`: the call either raises or returns a
response content string.  Only the parsing of the returned content is
guarded by `try/except` in the source. -/
inductive LLMCall where
  | raised
  | returned (content : String)
deriving DecidableEq

/-- Model of `RagasJudge.generate_followup` after the LLM call.  `parse` abstracts
`re.sub` + `json.loads` of the response content (external library code):
`none` means parsing raised.  A parse failure yields the generic fallback
follow-up; an exception from the LLM call itself is outside the
`try` block and propagates. -/
def generate_followup (call : LLMCall) (parse : String → Option Followup)
    (context : String) : Except Unit Followup :=
  match call with
  | .raised => .error ()
  | .returned c =>
    match parse c with
    | some fu => .ok fu
    | none =>
      .ok { question := "Could you elaborate more on that?"
            context_snippet := context
            rubric := { criteria := some "Elaborate on missing details."
                        exemplar := none } }

/-! ## Orchestrator data model (`src/models.py`, `src/orchestrator.py`) -/

/-- One exam question as the orchestrator reads it. -/
structure Question where
  question : String
  context_snippet : String
  rubric : Rubric
deriving DecidableEq

/-- The `ExamPlan` model: topic plus ordered question list. -/
structure ExamPlan where
  topic : String
  questions : List Question
deriving DecidableEq

/-- The `InterviewState` TypedDict of `src/models.py`.  `history` is the
`operator.add`-annotated append-only log. -/
structure InterviewState where
  exam_plan : ExamPlan
  current_q_index : ℕ
  history : List String
  last_judge_result : Option JudgeResult
  retry_count : ℕ
  followup_question : Option Followup
deriving DecidableEq

/-- The one Python exception the orchestrator's node functions can raise
on the modelled paths: a list index out of range. -/
inductive PyErr where
  | indexError
deriving DecidableEq

/-- Model of `OralExamOrchestrator.ask_question`: if a follow-up is active, ask it;
otherwise ask `questions[idx]`, or log "Exam Finished" when the index is
past the end (console output is not part of the state; only the history
entries are). -/
def ask_question (s : InterviewState) : InterviewState :=
  match s.followup_question with
  | some fu => { s with history := s.history ++ ["AI (Follow-up): " ++ fu.question] }
  | none =>
    match s.exam_plan.questions.get? s.current_q_index with
    | none => { s with history := s.history ++ ["System: Exam Finished"] }
    | some q => { s with history := s.history ++ ["AI: " ++ q.question] }

/-- Model of `OralExamOrchestrator.listen_answer`: record one answer from the I/O
adapter in the history. -/
def listen_answer (answer : String) (s : InterviewState) : InterviewState :=
  { s with history := s.history ++ ["User: " ++ answer] }

/-- Model of `OralExamOrchestrator.evaluate_response`.  `res` is the `JudgeResult`
the external judge returns for the latest answer and `newFu` the
follow-up the judge would generate in the PARTIAL branch.  The source
reads `history[-1]` (raising on an empty history) and, when no follow-up
is active, indexes `questions[idx]` (raising when the index is past the
end) before the judge call; the three-tier branch then is:
score > 7.0 ⇒ clear follow-up and reset retries; 3.0 ≤ score ≤ 7.0 with
no active follow-up ⇒ store `newFu` and increment `retry_count`;
otherwise ⇒ keep follow-up and retry count unchanged. -/
def evaluate_response (res : JudgeResult) (newFu : Followup)
    (s : InterviewState) : Except PyErr InterviewState :=
  match s.history.getLast? with
  | none => .error .indexError
  | some _ =>
    if s.followup_question.isNone ∧ (s.exam_plan.questions.get? s.current_q_index).isNone then
      .error .indexError
    else if 7 < res.score then
      .ok { s with last_judge_result := some res
                   followup_question := none
                   retry_count := 0 }
    else if 3 ≤ res.score ∧ res.score ≤ 7 ∧ s.followup_question.isNone then
      .ok { s with last_judge_result := some res
                   followup_question := some newFu
                   retry_count := s.retry_count + 1 }
    else
      .ok { s with last_judge_result := some res }

/-- Model of `OralExamOrchestrator.remedial_action`: at `retry_count >= 2` the hard
stop sets the `99` sentinel and clears the follow-up (the "moving on"
message goes to the console only, not to the history); otherwise a hint
built from the active rubric's criteria is logged and `retry_count`
incremented.  The main-question branch indexes `questions[idx]` directly
and can raise. -/
def remedial_action (s : InterviewState) : Except PyErr InterviewState :=
  if 2 ≤ s.retry_count then
    .ok { s with retry_count := 99, followup_question := none }
  else
    match s.followup_question with
    | some fu =>
      let crit := fu.rubric.criteria.getD
        "Review the concept. Give exactly ONE small hint about the concept."
      .ok { s with
        history := s.history ++ ["AI Hint: Not quite. Hint: " ++ crit ++ ". Try again."]
        retry_count := s.retry_count + 1 }
    | none =>
      match s.exam_plan.questions.get? s.current_q_index with
      | none => .error .indexError
      | some q =>
        let crit := q.rubric.criteria.getD
          "Review the concept. Give exactly ONE small hint about the concept."
        .ok { s with
          history := s.history ++ ["AI Hint: Not quite. Hint: " ++ crit ++ ". Try again."]
          retry_count := s.retry_count + 1 }

/-- Model of `OralExamOrchestrator.advance_step`. -/
def advance_step (s : InterviewState) : InterviewState :=
  { s with current_q_index := s.current_q_index + 1
           retry_count := 0
           last_judge_result := none
           followup_question := none }

/-- The four values `route_logic` can return (`END`, `"advance"`,
`"ask"`, `"remedial"`). -/
inductive Route where
  | stop
  | advance
  | ask
  | remedial
deriving DecidableEq

/-- The expression `score = res["score"] if res else 0` inside `route_logic`. -/
def route_score : Option JudgeResult → ℚ
  | some res => res.score
  | none => 0

/-- The conditional router of `build_workflow`:
index past the end ⇒ END; `score > 6.9` ⇒ advance; an active follow-up
with `3.0 <= score <= 7.0` ⇒ ask again; `retry_count < 3` ⇒ remedial;
otherwise advance. -/
def route_logic (s : InterviewState) : Route :=
  if s.exam_plan.questions.length ≤ s.current_q_index then .stop
  else if 69/10 < route_score s.last_judge_result then .advance
  else if s.followup_question.isSome ∧ 3 ≤ route_score s.last_judge_result ∧
      route_score s.last_judge_result ≤ 7 then .ask
  else if s.retry_count < 3 then .remedial
  else .advance

/-! ## The compiled workflow as a small-step executor -/

/-- The graph nodes of `build_workflow` plus the END pseudo-node. -/
inductive Node where
  | ask
  | listen
  | grade
  | remedial
  | advance
  | finish
deriving DecidableEq

/-- A point in a workflow run: current node, current state, and the
number of answers collected so far (`cycles` counts `listen` visits:
one answer cycle = one user answer). -/
structure Exec where
  node : Node
  st : InterviewState
  cycles : ℕ
deriving DecidableEq

/-- The external world of one run: the user's answers, the judge's
verdict for the n-th answer, and the follow-up the judge would generate
for the n-th answer. -/
structure Oracle where
  answers : ℕ → String
  results : ℕ → JudgeResult
  followups : ℕ → Followup

/-- Map a router verdict to the next graph node. -/
def routeNode : Route → Node
  | .stop => .finish
  | .advance => .advance
  | .ask => .ask
  | .remedial => .remedial

/-- One node execution of the compiled graph, following the edges of
`build_workflow`: ask → listen, listen → grade, grade → `route_logic` of
the updated state, remedial → listen, advance → ask. -/
def stepW (o : Oracle) (e : Exec) : Except PyErr Exec :=
  match e.node with
  | .ask => .ok ⟨.listen, ask_question e.st, e.cycles⟩
  | .listen => .ok ⟨.grade, listen_answer (o.answers e.cycles) e.st, e.cycles + 1⟩
  | .grade =>
    match evaluate_response (o.results (e.cycles - 1)) (o.followups (e.cycles - 1)) e.st with
    | .error err => .error err
    | .ok s => .ok ⟨routeNode (route_logic s), s, e.cycles⟩
  | .remedial =>
    match remedial_action e.st with
    | .error err => .error err
    | .ok s => .ok ⟨.listen, s, e.cycles⟩
  | .advance => .ok ⟨.ask, advance_step e.st, e.cycles⟩
  | .finish => .ok e

/-- Run the graph for at most `fuel` node executions (the graph itself
has no step bound; fuel only truncates our observation of the run). -/
def runW (o : Oracle) : ℕ → Exec → Except PyErr Exec
  | 0, e => .ok e
  | fuel + 1, e =>
    match e.node with
    | .finish => .ok e
    | _ =>
      match stepW o e with
      | .error err => .error err
      | .ok e' => runW o fuel e'

/-- The initial state built in `pipeline.py` (`current_q_index = 0`,
empty history, no judge result, `retry_count = 0`, and no
`followup_question` key, i.e. `None`). -/
def init_state (plan : ExamPlan) : InterviewState :=
  ⟨plan, 0, [], none, 0, none⟩

/-- A run starts at the graph entry point `ask` with no answers yet. -/
def init_exec (plan : ExamPlan) : Exec :=
  ⟨.ask, init_state plan, 0⟩

/-! ## Concrete fixtures for the executable scenarios -/

/-- A first exam question. -/
def q1 : Question :=
  ⟨"What is photosynthesis?", "ctx1", ⟨some "Mentions light and chlorophyll", none⟩⟩

/-- A second exam question. -/
def q2 : Question :=
  ⟨"What is respiration?", "ctx2", ⟨some "Mentions oxygen and glucose", none⟩⟩

/-- A one-question plan. -/
def plan1 : ExamPlan := ⟨"Biology", [q1]⟩

/-- A two-question plan. -/
def plan2 : ExamPlan := ⟨"Biology", [q1, q2]⟩

/-- A generated follow-up question. -/
def fuGen : Followup :=
  ⟨"Which pigment absorbs the light?", "ctx1", ⟨some "Names chlorophyll", none⟩⟩

/-- A judge verdict with score 2.0 (FAIL tier). -/
def res2 : JudgeResult := ⟨2, true, "weak", ⟨0, 0, 0⟩⟩

/-- A judge verdict with score 5.0 (PARTIAL tier). -/
def res5 : JudgeResult := ⟨5, true, "partial", ⟨0, 0, 0⟩⟩

/-- A judge verdict with score 9.0 (PASS tier). -/
def res9 : JudgeResult := ⟨9, false, "strong", ⟨0, 0, 0⟩⟩

/-- Metric outcomes that scale to a score of exactly 7.0. -/
def m7 : MetricResults := ⟨.ok (7/10), .ok (7/10), .ok (7/10)⟩

/-- A run in which every answer is graded 2.0. -/
def o2 : Oracle := ⟨fun _ => "ans", fun _ => res2, fun _ => fuGen⟩

/-- A run in which every answer is graded 5.0. -/
def o5 : Oracle := ⟨fun _ => "ans", fun _ => res5, fun _ => fuGen⟩

/-- A run in which every answer is graded 9.0. -/
def o9 : Oracle := ⟨fun _ => "ans", fun _ => res9, fun _ => fuGen⟩

/-- The state right after the first answer to `plan1`'s main question has
been collected (the point at which `evaluate_response` runs). -/
def stAns : InterviewState :=
  ⟨plan1, 0, ["AI: What is photosynthesis?", "User: ans"], none, 0, none⟩

/-- A mid-session state of `plan1` in which the generated follow-up is
active, one probe has been spent, and the latest answer to the follow-up
has just been collected. -/
def stFu : InterviewState :=
  ⟨plan1, 0,
   ["AI: What is photosynthesis?", "User: ans",
    "AI (Follow-up): Which pigment absorbs the light?", "User: ans"],
   some res5, 1, some fuGen⟩

/-! ## Adapter branching (`src/gui.py`, `src/ui.py`) -/

/-- The index/retry branch of `LexiCognitionGUI._handle_eval_result`
(`src/gui.py`): hint and increment the retry counter when the result is
remedial and fewer than 2 retries were used, otherwise advance the
question index and reset the counter (chat messages are presentation
only and elided). -/
def handle_eval_result (res : JudgeResult) (idx retry : ℕ) : ℕ × ℕ :=
  if res.is_remedial_needed && decide (retry < 2) then (idx, retry + 1)
  else (idx + 1, 0)

/-- The index/retry branch of `process_answer` in the Streamlit adapter
(`src/ui.py`), identical in shape to the GUI handler. -/
def process_answer (res : JudgeResult) (idx retry : ℕ) : ℕ × ℕ :=
  if res.is_remedial_needed && decide (retry < 2) then (idx, retry + 1)
  else (idx + 1, 0)

/-- A metric outcome from which `safe_get` cannot read a usable number. -/
def MetricVal.unreadable (v : MetricVal) : Prop := v = .nan ∨ v = .missing

/-- Extract the exception with which a workflow run aborted, if any. -/
def exceptError {e a : Type} : Except e a → Option e
  | .error err => some err
  | .ok _ => none

/-! ## Reachability invariant for the retry counter -/

/-- The inductive invariant on the retry counter: with no active
follow-up the counter is one of `0,1,2` or the give-up sentinel `99`;
in general it is one of `0,1,2,3,99,100` (`3` arises from a probe after
two hints, `100` from a probe after a give-up). -/
def RetryInv (s : InterviewState) : Prop :=
  (s.followup_question = none →
    s.retry_count = 0 ∨ s.retry_count = 1 ∨ s.retry_count = 2 ∨ s.retry_count = 99) ∧
  (s.retry_count = 0 ∨ s.retry_count = 1 ∨ s.retry_count = 2 ∨
   s.retry_count = 3 ∨ s.retry_count = 99 ∨ s.retry_count = 100)

/-! ## Helper lemmas -/

theorem retryInv_congr {s s' : InterviewState}
    (hr : s'.retry_count = s.retry_count)
    (hf : s'.followup_question = s.followup_question)
    (h : RetryInv s) : RetryInv s' := by
  unfold RetryInv at h ⊢
  rw [hr, hf]
  exact h

theorem ask_question_fields (s : InterviewState) :
    (ask_question s).retry_count = s.retry_count ∧
    (ask_question s).followup_question = s.followup_question := by
  unfold ask_question
  cases h : s.followup_question with
  | some fu => simp
  | none =>
    cases h2 : s.exam_plan.questions.get? s.current_q_index <;> simp [h]

theorem retryInv_init (plan : ExamPlan) : RetryInv (init_state plan) := by
  constructor
  · intro _; left; rfl
  · left; rfl

theorem retryInv_evaluate {res : JudgeResult} {newFu : Followup}
    {s s' : InterviewState} (h : evaluate_response res newFu s = .ok s')
    (hInv : RetryInv s) : RetryInv s' := by
  unfold evaluate_response at h
  cases hgl : s.history.getLast? with
  | none => rw [hgl] at h; exact absurd h (by simp)
  | some last =>
    rw [hgl] at h
    by_cases hc1 : s.followup_question.isNone = true ∧
        (s.exam_plan.questions.get? s.current_q_index).isNone = true
    · rw [if_pos hc1] at h
      exact absurd h (by simp)
    · rw [if_neg hc1] at h
      by_cases hc2 : (7 : ℚ) < res.score
      · rw [if_pos hc2] at h
        cases h
        exact ⟨fun _ => Or.inl rfl, Or.inl rfl⟩
      · rw [if_neg hc2] at h
        by_cases hc3 : (3 : ℚ) ≤ res.score ∧ res.score ≤ 7 ∧
            s.followup_question.isNone = true
        · rw [if_pos hc3] at h
          cases h
          have hfu : s.followup_question = none := Option.isNone_iff_eq_none.mp hc3.2.2
          have hv := hInv.1 hfu
          constructor
          · intro hcontra
            simp at hcontra
          · show s.retry_count + 1 = 0 ∨ s.retry_count + 1 = 1 ∨ s.retry_count + 1 = 2 ∨
              s.retry_count + 1 = 3 ∨ s.retry_count + 1 = 99 ∨ s.retry_count + 1 = 100
            omega
        · rw [if_neg hc3] at h
          cases h
          exact ⟨fun hfu => hInv.1 hfu, hInv.2⟩

theorem retryInv_remedial {s s' : InterviewState}
    (h : remedial_action s = .ok s') (_hInv : RetryInv s) : RetryInv s' := by
  unfold remedial_action at h
  by_cases h1 : 2 ≤ s.retry_count
  · rw [if_pos h1] at h
    cases h
    exact ⟨fun _ => Or.inr (Or.inr (Or.inr rfl)),
           Or.inr (Or.inr (Or.inr (Or.inr (Or.inl rfl))))⟩
  · rw [if_neg h1] at h
    have hretry : s.retry_count ≤ 1 := by omega
    cases hfu : s.followup_question with
    | some fu =>
      rw [hfu] at h
      cases h
      constructor
      · intro hcontra
        simp at hcontra
      · show s.retry_count + 1 = 0 ∨ s.retry_count + 1 = 1 ∨ s.retry_count + 1 = 2 ∨
          s.retry_count + 1 = 3 ∨ s.retry_count + 1 = 99 ∨ s.retry_count + 1 = 100
        omega
    | none =>
      rw [hfu] at h
      cases hq : s.exam_plan.questions.get? s.current_q_index with
      | none => rw [hq] at h; exact absurd h (by simp)
      | some q =>
        rw [hq] at h
        cases h
        constructor
        · intro _
          show s.retry_count + 1 = 0 ∨ s.retry_count + 1 = 1 ∨ s.retry_count + 1 = 2 ∨
            s.retry_count + 1 = 99
          omega
        · show s.retry_count + 1 = 0 ∨ s.retry_count + 1 = 1 ∨ s.retry_count + 1 = 2 ∨
            s.retry_count + 1 = 3 ∨ s.retry_count + 1 = 99 ∨ s.retry_count + 1 = 100
          omega

theorem retryInv_step {o : Oracle} {e e' : Exec}
    (h : stepW o e = .ok e') (hInv : RetryInv e.st) : RetryInv e'.st := by
  unfold stepW at h
  cases hn : e.node <;> rw [hn] at h
  · cases h
    exact retryInv_congr (ask_question_fields e.st).1 (ask_question_fields e.st).2 hInv
  · cases h
    exact retryInv_congr rfl rfl hInv
  · cases hev : evaluate_response (o.results (e.cycles - 1)) (o.followups (e.cycles - 1)) e.st with
    | error err => rw [hev] at h; simp at h
    | ok s =>
      rw [hev] at h
      cases h
      exact retryInv_evaluate hev hInv
  · cases hrm : remedial_action e.st with
    | error err => rw [hrm] at h; simp at h
    | ok s =>
      rw [hrm] at h
      cases h
      exact retryInv_remedial hrm hInv
  · cases h
    constructor
    · intro _; left; rfl
    · left; rfl
  · cases h
    exact hInv

theorem retryInv_run {o : Oracle} :
    ∀ {n : ℕ} {e e' : Exec}, runW o n e = .ok e' → RetryInv e.st → RetryInv e'.st := by
  intro n
  induction n with
  | zero =>
    intro e e' h hInv
    cases h
    exact hInv
  | succ n ih =>
    intro e e' h hInv
    unfold runW at h
    split at h
    · cases h
      exact hInv
    · cases hst : stepW o e with
      | error err => rw [hst] at h; simp at h
      | ok e1 =>
        rw [hst] at h
        exact ih h (retryInv_step hst hInv)

/-! ## Claim theorems -/

/-- C1: the claim asserts that a score in `[3.0, 7.0]` graded while a
follow-up is active leads to remediation (hint-and-retry) and never to
re-asking without remediation.  Evaluating the code at such a state
(active follow-up, score 5.0): no second-level follow-up is generated and
the retry counter is unchanged, but `route_logic` returns `"ask"`, so the
same follow-up is re-asked with no hint and no retry increment — not the
remediation path the claim requires. -/
theorem C1_followup_partial_reasks_without_remediation :
    (evaluate_response res5 fuGen stFu).toOption.map
      (fun s => (route_logic s, s.retry_count, s.followup_question)) =
      some (Route.ask, 1, some fuGen) ∧
    Route.ask ≠ Route.remedial := by
  exact ⟨by with_unfolding_all decide, by decide⟩

/-- C2: the claim asserts every exam terminates within
`n × (2 + MAX_RETRIES)` answer cycles.  Running the workflow on a
1-question plan in which every answer scores 5.0: after 20 node
executions the run has consumed 7 answer cycles (> 1 × (2 + 2) = 4), is
still on question 0 with `retry_count = 1`, and is about to grade yet
another answer — the partially-scored follow-up is re-asked forever and
the bound fails. -/
theorem C2_followup_loop_exceeds_cycle_bound :
    (runW o5 20 (init_exec plan1)).toOption.map
      (fun e => (e.node, e.cycles, e.st.current_q_index, e.st.retry_count)) =
      some (Node.grade, 7, 0, 1) ∧
    1 * (2 + 2) < 7 := by
  exact ⟨by with_unfolding_all decide, by decide⟩

/-- C3: the claim asserts that on a 1-question plan with answers scoring
2.0, 2.0, 2.0 the session hints twice, force-advances on the third fail,
and reaches Complete after exactly 3 answer cycles.  Running the
workflow: after the third fail the hard stop emits the moving-on message
and sets `retry_count = 99` with the question NOT advanced
(`current_q_index = 0`), and the graph's unconditional `remedial →
listen` edge then waits for a fourth answer; grading that fourth answer
finally routes to advance, after which the finished-exam `ask` still
flows into `listen`/`grade` and raises IndexError on the fifth answer. -/
theorem C3_giveup_takes_extra_answer_cycle :
    (runW o2 10 (init_exec plan1)).toOption.map
      (fun e => (e.node, e.cycles, e.st.retry_count, e.st.current_q_index)) =
      some (Node.listen, 3, 99, 0) ∧
    exceptError (runW o2 16 (init_exec plan1)) = some PyErr.indexError := by
  exact ⟨by with_unfolding_all decide, by with_unfolding_all decide⟩

/-- C4 counterexample: a reachable session state (1-question plan, three
answers scoring 2.0) has `retry_count = 99`, violating the claimed
invariant `retry_count ≤ MAX_RETRIES = 2`. -/
theorem C4_counterexample_retry_sentinel :
    (runW o2 10 (init_exec plan1)).toOption.map (fun e => e.st.retry_count) =
      some 99 ∧
    ¬(99 ≤ 2) := by
  exact ⟨by with_unfolding_all decide, by decide⟩

/-- C4 amended: in every reachable workflow state the retry counter is
one of 0, 1, 2, 3, 99 or 100 (3 after a probe following two hints, 99 as
the give-up sentinel, 100 after a probe following a give-up); whenever
the question advances (`advance_step`) the counter is reset to 0 and the
active follow-up is cleared, and the question index advances by one. -/
theorem C4_retry_values_amended (plan : ExamPlan) (o : Oracle) (n : ℕ)
    (e : Exec) (h : runW o n (init_exec plan) = .ok e) :
    (e.st.retry_count = 0 ∨ e.st.retry_count = 1 ∨ e.st.retry_count = 2 ∨
     e.st.retry_count = 3 ∨ e.st.retry_count = 99 ∨ e.st.retry_count = 100) ∧
    (advance_step e.st).retry_count = 0 ∧
    (advance_step e.st).followup_question = none ∧
    (advance_step e.st).current_q_index = e.st.current_q_index + 1 := by
  have hInv := retryInv_run h (retryInv_init plan)
  exact ⟨hInv.2, rfl, rfl, rfl⟩

/-- Witness for the amended C4 theorem at the concrete run
`runW o2 0 (init_exec plan1)`. -/
theorem C4_retry_values_amended_witness :
    runW o2 0 (init_exec plan1) = Except.ok (init_exec plan1) ∧
    (((init_exec plan1).st.retry_count = 0 ∨ (init_exec plan1).st.retry_count = 1 ∨
      (init_exec plan1).st.retry_count = 2 ∨ (init_exec plan1).st.retry_count = 3 ∨
      (init_exec plan1).st.retry_count = 99 ∨ (init_exec plan1).st.retry_count = 100) ∧
     (advance_step (init_exec plan1).st).retry_count = 0 ∧
     (advance_step (init_exec plan1).st).followup_question = none ∧
     (advance_step (init_exec plan1).st).current_q_index =
       (init_exec plan1).st.current_q_index + 1) :=
  ⟨rfl, C4_retry_values_amended plan1 o2 0 (init_exec plan1) rfl⟩

/-- C5: the claim asserts that once `current_question_index` equals the
number of questions the session is terminal: no further answers, no
further grading, no out-of-range access; and that a 2-question plan with
two 9.0 answers completes after exactly 2 answer cycles.  Running the
workflow: the index does reach 2 after 2 answer cycles, but the graph
then executes `ask` ("Exam Finished") and the unconditional `ask →
listen` edge collects a THIRD answer (cycles = 3), after which
`evaluate_response` indexes `questions[2]` and raises IndexError. -/
theorem C5_complete_is_not_terminal :
    (runW o9 10 (init_exec plan2)).toOption.map
      (fun e => (e.node, e.cycles, e.st.current_q_index)) =
      some (Node.grade, 3, 2) ∧
    exceptError (runW o9 11 (init_exec plan2)) = some PyErr.indexError := by
  exact ⟨by with_unfolding_all decide, by with_unfolding_all decide⟩

/-- C6: the claim asserts that any score in `[3.0, 7.0]` with no active
follow-up yields a Probe: follow-up generated and stored, retry count
incremented, and the follow-up asked next.  Evaluating the code at the
attainable score of exactly 7.0 (all three metrics 0.7): the partial tier
of `evaluate_response` (`3.0 <= score <= 7.0`) does generate and store
the follow-up and increments `retry_count`, but `route_logic`'s pass
check uses `score > 6.9` (its comment says "> 7") and routes to
`"advance"`, so the stored follow-up is never asked. -/
theorem C6_score_seven_generates_followup_then_advances :
    (evaluate_response (evaluate_answer m7 "fb") fuGen stAns).toOption.map
      (fun s => (s.followup_question, s.retry_count, route_logic s)) =
      some (some fuGen, 1, Route.advance) ∧
    (evaluate_answer m7 "fb").score = 7 := by
  exact ⟨by with_unfolding_all decide, by with_unfolding_all decide⟩

/-- C7: any score strictly above 7.0 is a Pass regardless of
`retry_count` or follow-up state: `evaluate_response` clears the active
follow-up and resets `retry_count` to 0, `route_logic` routes to
`"advance"`, and `advance_step` then advances the question index by
exactly 1 with the counter still 0 and no follow-up. -/
theorem C7_pass_clears_resets_advances (res : JudgeResult) (fu : Followup)
    (s : InterviewState) (hscore : 7 < res.score) (hhist : s.history ≠ [])
    (hidx : s.current_q_index < s.exam_plan.questions.length) :
    ∃ s', evaluate_response res fu s = .ok s' ∧
      s'.followup_question = none ∧ s'.retry_count = 0 ∧
      route_logic s' = Route.advance ∧
      (advance_step s').current_q_index = s.current_q_index + 1 ∧
      (advance_step s').retry_count = 0 ∧
      (advance_step s').followup_question = none := by
  have hgl : ∃ a, s.history.getLast? = some a := by
    rw [← Option.ne_none_iff_exists']
    simpa [List.getLast?_eq_none_iff] using hhist
  obtain ⟨last, hlast⟩ := hgl
  have hq : (s.exam_plan.questions.get? s.current_q_index).isNone = false := by
    simp [List.get?_eq_getElem?, List.getElem?_eq_getElem hidx]
  have heq : evaluate_response res fu s =
      .ok { s with last_judge_result := some res, followup_question := none,
                   retry_count := 0 } := by
    unfold evaluate_response
    rw [hlast]
    rw [if_neg (by simp [hq]; exact fun _ => hidx), if_pos hscore]
  refine ⟨_, heq, rfl, rfl, ?_, rfl, rfl, rfl⟩
  have h1 : ¬(s.exam_plan.questions.length ≤ s.current_q_index) := by omega
  have h2 : (69 : ℚ)/10 < route_score (some res) := by
    have h7 : (69 : ℚ)/10 < 7 := by norm_num
    exact lt_trans h7 hscore
  unfold route_logic
  rw [if_neg h1, if_pos h2]

/-- Witness for C7 at a concrete passing state: score 9.0 graded at the
initial answer state of the 1-question plan. -/
theorem C7_pass_clears_resets_advances_witness :
    (7 : ℚ) < res9.score ∧ stAns.history ≠ [] ∧
    stAns.current_q_index < stAns.exam_plan.questions.length ∧
    (∃ s', evaluate_response res9 fuGen stAns = .ok s' ∧
      s'.followup_question = none ∧ s'.retry_count = 0 ∧
      route_logic s' = Route.advance ∧
      (advance_step s').current_q_index = stAns.current_q_index + 1 ∧
      (advance_step s').retry_count = 0 ∧
      (advance_step s').followup_question = none) :=
  ⟨by norm_num [res9], by simp [stAns], by decide,
   C7_pass_clears_resets_advances res9 fuGen stAns (by norm_num [res9])
     (by simp [stAns]) (by decide)⟩

/-- C8 counterexample: the claim's fallback text and failure scoping do
not match the code.  (i) An exception raised by the LLM call itself is
outside the `try` block of `generate_followup` and propagates.  (ii) On a
parse failure the fallback question is "Could you elaborate more on
that?", not the claimed "Could you elaborate on that?". -/
theorem C8_counterexample_fallback :
    generate_followup LLMCall.raised (fun _ => none) "ctx1" = Except.error () ∧
    (generate_followup (LLMCall.returned "oops") (fun _ => none) "ctx1").toOption.map
      Followup.question ≠ some "Could you elaborate on that?" := by
  exact ⟨rfl, by decide⟩

/-- C8 amended: whenever the follow-up generator's LLM response cannot be
parsed as JSON, the state machine receives the generic catch-all
follow-up "Could you elaborate more on that?" — a non-empty question
string — carrying the original context snippet and the generic rubric
"Elaborate on missing details.", and no parse exception propagates; an
exception raised by the LLM call itself is not caught. -/
theorem C8_parse_failure_fallback_amended (parse : String → Option Followup)
    (c context : String) (h : parse c = none) :
    generate_followup (LLMCall.returned c) parse context =
      Except.ok { question := "Could you elaborate more on that?"
                  context_snippet := context
                  rubric := { criteria := some "Elaborate on missing details."
                              exemplar := none } } ∧
    "Could you elaborate more on that?" ≠ "" := by
  constructor
  · simp [generate_followup, h]
  · decide

/-- Witness for the amended C8 theorem at a concrete unparseable
response. -/
theorem C8_parse_failure_fallback_amended_witness :
    (fun (_ : String) => (none : Option Followup)) "oops" = none ∧
    (generate_followup (LLMCall.returned "oops") (fun _ => none) "ctx1" =
      Except.ok { question := "Could you elaborate more on that?"
                  context_snippet := "ctx1"
                  rubric := { criteria := some "Elaborate on missing details."
                              exemplar := none } } ∧
     "Could you elaborate more on that?" ≠ "") :=
  ⟨rfl, C8_parse_failure_fallback_amended (fun _ => none) "oops" "ctx1" rfl⟩

/-- C9: when the grading backend cannot produce any numeric score (every
metric is missing, malformed, or NaN), each unreadable metric defaults to
0.0 via `safe_get`, the returned score is 0.0 — squarely in the FAIL
range, below 3.0, with the remedial flag set — and a missing grading
result is routed by `route_logic` as score 0. -/
theorem C9_unreadable_metrics_default_to_fail (f r c : MetricVal)
    (fb : String) (hf : f.unreadable) (hr : r.unreadable)
    (hc : c.unreadable) :
    safe_get f = 0 ∧
    (evaluate_answer ⟨f, r, c⟩ fb).score = 0 ∧
    (evaluate_answer ⟨f, r, c⟩ fb).score < 3 ∧
    (evaluate_answer ⟨f, r, c⟩ fb).is_remedial_needed = true ∧
    route_score none = 0 := by
  have hf0 : safe_get f = 0 := by rcases hf with h | h <;> simp [h, safe_get]
  have hr0 : safe_get r = 0 := by rcases hr with h | h <;> simp [h, safe_get]
  have hc0 : safe_get c = 0 := by rcases hc with h | h <;> simp [h, safe_get]
  have hscore : (evaluate_answer ⟨f, r, c⟩ fb).score = 0 := by
    norm_num [evaluate_answer, hf0, hr0, hc0, round1, roundHalfEven]
  refine ⟨hf0, hscore, ?_, ?_, rfl⟩
  · rw [hscore]; norm_num
  · show decide ((evaluate_answer ⟨f, r, c⟩ fb).score < 7) = true
    rw [hscore]
    norm_num

/-- Witness for C9 at a concrete fully-unreadable metric triple. -/
theorem C9_unreadable_metrics_default_to_fail_witness :
    MetricVal.unreadable .nan ∧ MetricVal.unreadable .missing ∧
    (safe_get .nan = 0 ∧
     (evaluate_answer ⟨.nan, .missing, .nan⟩ "fb").score = 0 ∧
     (evaluate_answer ⟨.nan, .missing, .nan⟩ "fb").score < 3 ∧
     (evaluate_answer ⟨.nan, .missing, .nan⟩ "fb").is_remedial_needed = true ∧
     route_score none = 0) :=
  ⟨Or.inl rfl, Or.inr rfl,
   C9_unreadable_metrics_default_to_fail .nan .missing .nan "fb"
     (Or.inl rfl) (Or.inr rfl) (Or.inl rfl)⟩

/-- C10: `evaluate_answer` sets `is_remedial_needed` exactly when the
scaled score is strictly below 7.0; the score of exactly 7.0 is
attainable (all three metrics 0.7) and is reported as non-remedial, so
the GUI handler and the web adapter — which branch on the flag — advance
the question at exactly 7.0, while the core's PASS tier in
`evaluate_response` (`score > 7.0`) does not treat 7.0 as a pass: it
stores a follow-up instead. -/
theorem C10_remedial_flag_is_score_below_seven :
    (∀ (m : MetricResults) (fb : String),
      ((evaluate_answer m fb).is_remedial_needed = true ↔
        (evaluate_answer m fb).score < 7)) ∧
    (evaluate_answer m7 "fb").score = 7 ∧
    (evaluate_answer m7 "fb").is_remedial_needed = false ∧
    (∀ idx retry : ℕ,
      handle_eval_result (evaluate_answer m7 "fb") idx retry = (idx + 1, 0)) ∧
    (∀ idx retry : ℕ,
      process_answer (evaluate_answer m7 "fb") idx retry = (idx + 1, 0)) ∧
    (evaluate_response (evaluate_answer m7 "fb") fuGen stAns).toOption.map
      (fun s => s.followup_question) = some (some fuGen) := by
  have hscore : (evaluate_answer m7 "fb").score = 7 := by
    with_unfolding_all decide
  have hflag : (evaluate_answer m7 "fb").is_remedial_needed = false := by
    with_unfolding_all decide
  refine ⟨?_, hscore, hflag, ?_, ?_, ?_⟩
  · intro m fb
    simp [evaluate_answer]
  · intro idx retry
    simp [handle_eval_result, hflag]
  · intro idx retry
    simp [process_answer, hflag]
  · with_unfolding_all decide
